import Mathlib

/-!
Verification of the event-driven core of the todo-spec-driven repository.

The Lean definitions below are a shallow embedding of the Python source:

* `backend/src/services/reminder_service.py` (`ReminderService`)
* `backend/src/services/recurring_service.py` (`RecurringService`)
* `backend/src/mcp_server/server.py` (the MCP tool catalog)
* `services/recurring-task-service/src/scheduler.py` (`RecurringTaskScheduler`)
* `services/audit-service/src/consumer.py` and `logger.py`
* `services/notification-service/src/consumer.py` and `notifier.py`
* `services/websocket-service/src/routes/websocket.py`

Naive-UTC datetimes are modelled as a record of calendar fields; Python's
`timedelta` / `relativedelta` arithmetic is modelled by explicit calendar
functions.  Fallible code returns `Except`/`Option`, and side effects
(database writes, pub/sub publishes, Dapr job scheduling) are made explicit
as returned state and effect lists.
-/

namespace Todo

/-- Naive UTC datetime (Python `datetime` with `tzinfo` stripped), as stored
in the database and compared by the reminder engine. -/
structure DateTime where
  year : Nat
  month : Nat
  day : Nat
  hour : Nat
  minute : Nat
  second : Nat
deriving DecidableEq, Repr

/-- Injective key used to compare datetimes the way Python compares
`datetime` values field by field (valid for in-range calendar fields). -/
def DateTime.key (d : DateTime) : Nat :=
  ((((d.year * 13 + d.month) * 32 + d.day) * 24 + d.hour) * 60 + d.minute) * 60 + d.second

/-- Python `d1 <= d2` on naive datetimes. -/
def DateTime.le (a b : DateTime) : Bool :=
  a.key ≤ b.key

/-- Gregorian leap-year test (as implemented by Python's `calendar`
arithmetic underlying `dateutil.relativedelta`). -/
def isLeapYear (y : Nat) : Bool :=
  (y % 4 == 0 && y % 100 != 0) || (y % 400 == 0)

/-- Number of days in a month of a given year. -/
def daysInMonth (y m : Nat) : Nat :=
  if m == 2 then (if isLeapYear y then 29 else 28)
  else if m == 4 || m == 6 || m == 9 || m == 11 then 30
  else 31

/-- Successor day in the calendar; models one day of Python
`timedelta(days=1)` addition. -/
def nextDay (d : DateTime) : DateTime :=
  if d.day < daysInMonth d.year d.month then { d with day := d.day + 1 }
  else if d.month < 12 then { d with month := d.month + 1, day := 1 }
  else { d with year := d.year + 1, month := 1, day := 1 }

/-- Python `d + timedelta(days=n)` for naive datetimes (time of day is
unchanged). -/
def addDays (n : Nat) (d : DateTime) : DateTime :=
  match n with
  | 0 => d
  | n + 1 => addDays n (nextDay d)

/-- Python `d + relativedelta(months=n)`: month arithmetic with a single
clamp of the day to the target month's length (Jan 31 + 1 month = Feb 28). -/
def addMonths (n : Nat) (d : DateTime) : DateTime :=
  let total := d.month - 1 + n
  let y := d.year + total / 12
  let m := total % 12 + 1
  { d with year := y, month := m, day := min d.day (daysInMonth y m) }

/-- Python `d + relativedelta(years=n)`: year arithmetic with the day
clamped for leap days (Feb 29 + 1 year = Feb 28). -/
def addYears (n : Nat) (d : DateTime) : DateTime :=
  let y := d.year + n
  { d with year := y, day := min d.day (daysInMonth y d.month) }

/-- Optional recurrence configuration: the `recurrence_data` dict, of which
the backend reads the `"every"` key (an integer when present). -/
structure RecurrenceData where
  every : Option Int
deriving DecidableEq, Repr

/-- RecurringService.VALID_PATTERNS from
`backend/src/services/recurring_service.py`. -/
def validPatterns : List String :=
  ["daily", "weekly", "monthly", "yearly"]

/-- RecurringService.validate_pattern. -/
def validatePattern (pattern : String) : Bool :=
  validPatterns.contains pattern

/-- RecurringService.calculate_next_occurrence from
`backend/src/services/recurring_service.py` (lines 39-89): validates the
pattern, extracts the optional `every` interval (must be a positive
integer), then adds `interval` days / weeks / months / years, the latter
two via `relativedelta`.  `Except.error` models a raised `ValueError`. -/
def RecurringService.calculateNextOccurrence
    (currentDate : DateTime) (pattern : String)
    (recurrenceData : Option RecurrenceData) : Except String DateTime :=
  if !validatePattern pattern then
    .error ("Invalid pattern: " ++ pattern)
  else
    let interval : Int :=
      match recurrenceData with
      | some rd => match rd.every with
        | some e => e
        | none => 1
      | none => 1
    if interval < 1 then
      .error "'every' must be a positive integer"
    else if pattern == "daily" then
      .ok (addDays interval.toNat currentDate)
    else if pattern == "weekly" then
      .ok (addDays (7 * interval.toNat) currentDate)
    else if pattern == "monthly" then
      .ok (addMonths interval.toNat currentDate)
    else if pattern == "yearly" then
      .ok (addYears interval.toNat currentDate)
    else
      .error ("Unexpected pattern: " ++ pattern)

/-- RecurringTaskScheduler.calculate_next_occurrence from
`services/recurring-task-service/src/scheduler.py` (lines 22-77).  Its
PATTERN_MAP holds only `daily` (+1 day), `weekly` (+1 week) and `monthly`
(+1 month via `relativedelta`); any other pattern - `yearly` included -
raises `ValueError` (modelled by `Except.error`), and the method takes no
`every` multiplier. -/
def RecurringTaskScheduler.calculateNextOccurrence
    (currentDate : DateTime) (pattern : String) : Except String DateTime :=
  if pattern == "daily" then
    .ok (addDays 1 currentDate)
  else if pattern == "weekly" then
    .ok (addDays 7 currentDate)
  else if pattern == "monthly" then
    .ok (addMonths 1 currentDate)
  else
    .error ("Unsupported recurring pattern: " ++ pattern)

/-- Task priority values accepted by the MCP tools. -/
def validPriorities : List String :=
  ["low", "medium", "high"]

/-- Row of the `tasks` table: the fields of
`backend/src/models/task.py` plus the `next_occurrence` column that the
phase-5 migration adds to the database table.  The ORM Task class itself
does not declare `next_occurrence`, so Python attribute reads of it raise
`AttributeError` (see skip_occurrence and list_recurring below); the
column nevertheless exists on every row with its NULL default. -/
structure Task where
  id : Nat
  user_id : String
  title : String
  description : Option String
  completed : Bool
  priority : String
  due_date : Option DateTime
  is_recurring : Bool
  recurrence_pattern : Option String
  recurrence_data : Option RecurrenceData
  next_occurrence : Option DateTime
  created_at : DateTime
  updated_at : DateTime
deriving DecidableEq, Repr

/-- Row of the `tags` table (`backend/src/models/tag.py`). -/
structure Tag where
  id : Nat
  user_id : String
  name : String
  color : String
  created_at : DateTime
deriving DecidableEq, Repr

/-- ReminderStatus from `backend/src/models/reminder.py`. -/
inductive ReminderStatus where
  | pending
  | sent
  | failed
deriving DecidableEq, Repr

/-- Row of the `reminders` table (`backend/src/models/reminder.py`). -/
structure Reminder where
  id : Nat
  task_id : Nat
  user_id : String
  remind_at : DateTime
  status : ReminderStatus
  sent_at : Option DateTime
  dapr_job_name : Option String
  created_at : DateTime
deriving DecidableEq, Repr

/-- Relational store visible to the backend and the MCP server: the tables
the verified claims touch, plus the primary-key sequences. -/
structure DB where
  tasks : List Task
  tags : List Tag
  taskTags : List (Nat × Nat)
  reminders : List Reminder
  nextTaskId : Nat
  nextTagId : Nat
  nextReminderId : Nat
deriving DecidableEq, Repr

/-- Commit of a mutated reminder row: replaces the row with the same
primary key (SQLAlchemy updates the row in place). -/
def DB.setReminder (db : DB) (r : Reminder) : DB :=
  { db with reminders := db.reminders.map (fun x => if x.id == r.id then r else x) }

/-- Commit of a mutated task row: replaces the row with the same primary
key. -/
def DB.setTask (db : DB) (t : Task) : DB :=
  { db with tasks := db.tasks.map (fun x => if x.id == t.id then t else x) }

/-- Number of reminder rows with `status = pending` for a given task id
(the quantity bounded by the at-most-one-pending invariant). -/
def DB.countPendingForTask (db : DB) (taskId : Nat) : Nat :=
  (db.reminders.filter
    (fun r => r.task_id == taskId && r.status == ReminderStatus.pending)).length

/-- Envelope published on `reminder-events`
(`backend/src/schemas/events.py`, `ReminderEvent`; the correlation id and
timestamp are generated metadata and not modelled). -/
structure ReminderEvent where
  event_type : String
  reminder_id : Nat
  task_id : Nat
  user_id : String
  title : String
  due_at : Option DateTime
  remind_at : DateTime
deriving DecidableEq, Repr

/-- Outcome of `ReminderService.create_reminder`: the returned value or the
raised `AppException`, the committed database, the publishes attempted on
`reminder-events`, and the Dapr job registrations attempted. -/
structure CreateReminderOutcome where
  result : Except String Reminder
  db : DB
  publishedEvents : List ReminderEvent
  scheduledJobs : List String
deriving Repr

/-- ReminderService.fire_past_due_reminder
(`backend/src/services/reminder_service.py`, lines 352-415): publish a
`reminder.due` event; on success mark the row `sent` with `sent_at = now`,
on failure mark it `failed`.  `publishOk` is the boolean returned by
`DaprClient.publish_event`; `nowSent` is the `datetime.now` read taken when
marking the row sent. -/
def ReminderService.firePastDueReminder (db : DB) (reminder : Reminder)
    (task : Task) (publishOk : Bool) (nowSent : DateTime) :
    Reminder × DB × List ReminderEvent :=
  let event : ReminderEvent :=
    { event_type := "reminder.due"
      reminder_id := reminder.id
      task_id := task.id
      user_id := reminder.user_id
      title := task.title
      due_at := task.due_date
      remind_at := reminder.remind_at }
  if publishOk then
    let r := { reminder with status := ReminderStatus.sent, sent_at := some nowSent }
    (r, db.setReminder r, [event])
  else
    let r := { reminder with status := ReminderStatus.failed }
    (r, db.setReminder r, [event])

/-- ReminderService.create_reminder
(`backend/src/services/reminder_service.py`, lines 89-183): look up the
task by `(id, user_id)` (a miss raises not-found); insert a `pending` row;
if `remind_at <= now` fire the past-due path synchronously; otherwise
attempt to schedule the Dapr job `reminder-<id>` and record its name on
success.  `now` is the `datetime.now` read used for the past-due
comparison; `remindAt` is already normalized to naive UTC. -/
def ReminderService.createReminder (db : DB) (userId : String) (taskId : Nat)
    (remindAt : DateTime) (now nowSent : DateTime)
    (publishOk scheduleOk : Bool) : CreateReminderOutcome :=
  match db.tasks.find? (fun t => t.id == taskId && t.user_id == userId) with
  | none =>
      { result := .error ("Task " ++ toString taskId ++ " not found or access denied")
        db := db, publishedEvents := [], scheduledJobs := [] }
  | some task =>
      let reminder : Reminder :=
        { id := db.nextReminderId
          task_id := taskId
          user_id := userId
          remind_at := remindAt
          status := ReminderStatus.pending
          sent_at := none
          dapr_job_name := none
          created_at := now }
      let db1 := { db with
        reminders := db.reminders ++ [reminder]
        nextReminderId := db.nextReminderId + 1 }
      if remindAt.le now then
        let fired := ReminderService.firePastDueReminder db1 reminder task publishOk nowSent
        { result := .ok fired.1
          db := fired.2.1
          publishedEvents := fired.2.2
          scheduledJobs := [] }
      else
        let jobName := "reminder-" ++ toString reminder.id
        if scheduleOk then
          let r := { reminder with dapr_job_name := some jobName }
          { result := .ok r
            db := db1.setReminder r
            publishedEvents := []
            scheduledJobs := [jobName] }
        else
          { result := .ok reminder
            db := db1
            publishedEvents := []
            scheduledJobs := [jobName] }

/-- Structured result dict returned by every MCP tool: its `status` field
and optional `message` (the tools' remaining payload fields are data
projections of the entities and carry no control flow). -/
structure ToolResult where
  status : String
  message : Option String := none
deriving DecidableEq, Repr

/-- Safe message returned by every tool's catch-all exception handler. -/
def genericErrorMessage : String :=
  "An unexpected error occurred. Please try again."

/-- Result of a tool's catch-all exception handler
(`except Exception` in every `@mcp.tool` body of
`backend/src/mcp_server/server.py`). -/
def genericError : ToolResult :=
  { status := "error", message := some genericErrorMessage }

/-- Validation-failure result `{status: "error", message: <safe text>}`. -/
def errorResult (msg : String) : ToolResult :=
  { status := "error", message := some msg }

/-- Python truthiness of an optional string argument (`if s and ...`):
false for `None` and for the empty string. -/
def truthyStr : Option String → Bool
  | none => false
  | some s => s != ""

/-- Python truthiness of an optional list argument (`if xs:`): false for
`None` and for the empty list. -/
def truthyList : Option (List Nat) → Bool
  | none => false
  | some l => !l.isEmpty

/-- Hexadecimal digit test for the tag color regex. -/
def isHexDigitChar (c : Char) : Bool :=
  c.isDigit || ('a' ≤ c && c ≤ 'f') || ('A' ≤ c && c ≤ 'F')

/-- validate_hex_color from `backend/src/mcp_server/server.py` (lines
69-79): matches the regex `^#[0-9A-Fa-f]{6}$`. -/
def validate_hex_color (color : String) : Bool :=
  color.length == 7 && color.startsWith "#" &&
    (color.drop 1).toList.all isHexDigitChar

/-- The `due_date` string argument of update_task after parsing: absent,
the literal "clear" (case-insensitive), an unparseable string, or a parsed
ISO datetime. -/
inductive DueDateArg where
  | absent
  | clear
  | invalid
  | value (d : DateTime)
deriving DecidableEq, Repr

/-- CASCADE effect of deleting a task row: the `task_tags` links and
`reminders` rows referencing it are removed by the schema's
`ondelete=CASCADE` foreign keys. -/
def DB.deleteTask (db : DB) (taskId : Nat) : DB :=
  { db with
    tasks := db.tasks.filter (fun t => !(t.id == taskId))
    taskTags := db.taskTags.filter (fun p => !(p.1 == taskId))
    reminders := db.reminders.filter (fun r => !(r.task_id == taskId)) }

/-- CASCADE effect of deleting a tag row. -/
def DB.deleteTag (db : DB) (tagId : Nat) : DB :=
  { db with
    tags := db.tags.filter (fun t => !(t.id == tagId))
    taskTags := db.taskTags.filter (fun p => !(p.2 == tagId)) }

namespace Mcp

/-- MCP tool add_task (`backend/src/mcp_server/server.py`, lines 108-208).
`userId` is the result of get_user_id_from_request (`none` models the
raised ValueError, caught by the handler); `dueDate` is the
`fromisoformat` outcome of the optional due_date string (`some none` is a
provided but unparseable string).  Note the stored recurrence pattern is
`recurrence_pattern if is_recurring else None` and that only a truthy
pattern is validated. -/
def add_task (db : DB) (userId : Option String) (title : String)
    (description : Option String) (priority : String)
    (dueDate : Option (Option DateTime)) (tagIds : Option (List Nat))
    (isRecurring : Bool) (recurrencePattern : Option String)
    (now : DateTime) : ToolResult × DB :=
  match userId with
  | none => (genericError, db)
  | some uid =>
    if !(validPriorities.contains priority) then
      (errorResult "Invalid priority. Must be one of: low, medium, high", db)
    else if truthyStr recurrencePattern &&
        !(validPatterns.contains (recurrencePattern.getD "")) then
      (errorResult "Invalid recurrence pattern. Must be one of: daily, weekly, monthly, yearly", db)
    else
      match dueDate with
      | some none =>
          (errorResult "Invalid due_date format. Use ISO format like '2024-12-25' or '2024-12-25T18:00:00'", db)
      | _ =>
        match (if truthyList tagIds then
            (tagIds.getD []).find? (fun tid =>
              (db.tags.find? (fun tg => tg.id == tid && tg.user_id == uid)).isNone)
          else none) with
        | some badTid =>
            (errorResult ("Tag ID " ++ toString badTid ++ " not found or access denied"), db)
        | none =>
          let task : Task :=
            { id := db.nextTaskId
              user_id := uid
              title := title
              description := description
              completed := false
              priority := priority
              due_date := dueDate.join
              is_recurring := isRecurring
              recurrence_pattern := if isRecurring then recurrencePattern else none
              recurrence_data := none
              next_occurrence := none
              created_at := now
              updated_at := now }
          let db1 := { db with
            tasks := db.tasks ++ [task]
            nextTaskId := db.nextTaskId + 1 }
          let db2 :=
            if truthyList tagIds then
              { db1 with taskTags :=
                  db1.taskTags ++ (tagIds.getD []).map (fun tid => (task.id, tid)) }
            else db1
          ({ status := "created" }, db2)

/-- MCP tool list_tasks (`backend/src/mcp_server/server.py`, lines
211-323): the filters, search and sorting are pure queries that cannot
fail, so every call with a user context returns `success`. -/
def list_tasks (db : DB) (userId : Option String) (status : String)
    (priority : Option String) (tagIds : Option (List Nat))
    (search : Option String) (sortBy : String) (sortOrder : String) :
    ToolResult × DB :=
  match userId with
  | none => (genericError, db)
  | some _ => ({ status := "success" }, db)

/-- MCP tool complete_task (`backend/src/mcp_server/server.py`, lines
326-359): sets `completed = True` (and nothing else) on the owned task. -/
def complete_task (db : DB) (userId : Option String) (taskId : Nat) :
    ToolResult × DB :=
  match userId with
  | none => (genericError, db)
  | some uid =>
    match db.tasks.find? (fun t => t.id == taskId && t.user_id == uid) with
    | none => (errorResult "Task not found", db)
    | some task =>
        ({ status := "completed" }, db.setTask { task with completed := true })

/-- MCP tool delete_task (`backend/src/mcp_server/server.py`, lines
362-395). -/
def delete_task (db : DB) (userId : Option String) (taskId : Nat) :
    ToolResult × DB :=
  match userId with
  | none => (genericError, db)
  | some uid =>
    match db.tasks.find? (fun t => t.id == taskId && t.user_id == uid) with
    | none => (errorResult "Task not found", db)
    | some _ => ({ status := "deleted" }, db.deleteTask taskId)

/-- MCP tool update_task (`backend/src/mcp_server/server.py`, lines
398-489): validates truthy priority / recurrence pattern, applies provided
fields, handles the `due_date` string ("clear" clears it, a parse failure
aborts the request before commit), and stamps `updated_at`. -/
def update_task (db : DB) (userId : Option String) (taskId : Nat)
    (title : Option String) (description : Option String)
    (priority : Option String) (dueDate : DueDateArg)
    (completed : Option Bool) (isRecurring : Option Bool)
    (recurrencePattern : Option String) (now : DateTime) : ToolResult × DB :=
  match userId with
  | none => (genericError, db)
  | some uid =>
    if truthyStr priority && !(validPriorities.contains (priority.getD "")) then
      (errorResult "Invalid priority. Must be one of: low, medium, high", db)
    else if truthyStr recurrencePattern &&
        !(validPatterns.contains (recurrencePattern.getD "")) then
      (errorResult "Invalid recurrence pattern. Must be one of: daily, weekly, monthly, yearly", db)
    else
      match db.tasks.find? (fun t => t.id == taskId && t.user_id == uid) with
      | none => (errorResult "Task not found", db)
      | some task =>
        let t1 := match title with
          | some v => { task with title := v }
          | none => task
        let t2 := match description with
          | some v => { t1 with description := some v }
          | none => t1
        let t3 := match priority with
          | some v => { t2 with priority := v }
          | none => t2
        let t4 := match completed with
          | some v => { t3 with completed := v }
          | none => t3
        let t5 := match isRecurring with
          | some v => { t4 with is_recurring := v }
          | none => t4
        let t6 := match recurrencePattern with
          | some v => { t5 with recurrence_pattern := some v }
          | none => t5
        match dueDate with
        | .invalid =>
            (errorResult "Invalid due_date format. Use ISO format or 'clear'", db)
        | .clear =>
            ({ status := "updated" },
              db.setTask { t6 with due_date := none, updated_at := now })
        | .value d =>
            ({ status := "updated" },
              db.setTask { t6 with due_date := some d, updated_at := now })
        | .absent =>
            ({ status := "updated" }, db.setTask { t6 with updated_at := now })

/-- MCP tool add_tag (`backend/src/mcp_server/server.py`, lines 492-547). -/
def add_tag (db : DB) (userId : Option String) (name : String)
    (color : String) (now : DateTime) : ToolResult × DB :=
  match userId with
  | none => (genericError, db)
  | some uid =>
    if !(validate_hex_color color) then
      (errorResult "Invalid color format. Use hex format like '#3b82f6'", db)
    else if name.length > 50 then
      (errorResult "Tag name must be 50 characters or less", db)
    else if name.trim == "" then
      (errorResult "Tag name cannot be empty", db)
    else
      match db.tags.find? (fun t => t.user_id == uid && t.name == name) with
      | some _ => (errorResult ("Tag '" ++ name ++ "' already exists"), db)
      | none =>
        let tag : Tag :=
          { id := db.nextTagId, user_id := uid, name := name, color := color
            created_at := now }
        ({ status := "created" },
          { db with tags := db.tags ++ [tag], nextTagId := db.nextTagId + 1 })

/-- MCP tool list_tags (`backend/src/mcp_server/server.py`, lines 550-582):
a pure query, always `success` given a user context. -/
def list_tags (db : DB) (userId : Option String) : ToolResult × DB :=
  match userId with
  | none => (genericError, db)
  | some _ => ({ status := "success" }, db)

/-- MCP tool delete_tag (`backend/src/mcp_server/server.py`, lines
585-623). -/
def delete_tag (db : DB) (userId : Option String) (tagId : Nat) :
    ToolResult × DB :=
  match userId with
  | none => (genericError, db)
  | some uid =>
    match db.tags.find? (fun t => t.id == tagId && t.user_id == uid) with
    | none => (errorResult "Tag not found", db)
    | some _ => ({ status := "deleted" }, db.deleteTag tagId)

/-- MCP tool tag_task (`backend/src/mcp_server/server.py`, lines 626-698):
rejects an empty id list, verifies task and every tag ownership (an
unowned tag aborts before commit), and inserts the missing `task_tags`
links. -/
def tag_task (db : DB) (userId : Option String) (taskId : Nat)
    (tagIds : List Nat) : ToolResult × DB :=
  match userId with
  | none => (genericError, db)
  | some uid =>
    if tagIds.isEmpty then (errorResult "No tag IDs provided", db)
    else
      match db.tasks.find? (fun t => t.id == taskId && t.user_id == uid) with
      | none => (errorResult "Task not found", db)
      | some _ =>
        match tagIds.find? (fun tid =>
            (db.tags.find? (fun tg => tg.id == tid && tg.user_id == uid)).isNone) with
        | some badTid =>
            (errorResult ("Tag ID " ++ toString badTid ++ " not found or access denied"), db)
        | none =>
          let db2 := tagIds.foldl (fun acc tid =>
            if acc.taskTags.contains (taskId, tid) then acc
            else { acc with taskTags := acc.taskTags ++ [(taskId, tid)] }) db
          ({ status := "updated" }, db2)

/-- MCP tool untag_task (`backend/src/mcp_server/server.py`, lines
701-772). -/
def untag_task (db : DB) (userId : Option String) (taskId : Nat)
    (tagIds : List Nat) : ToolResult × DB :=
  match userId with
  | none => (genericError, db)
  | some uid =>
    if tagIds.isEmpty then (errorResult "No tag IDs provided", db)
    else
      match db.tasks.find? (fun t => t.id == taskId && t.user_id == uid) with
      | none => (errorResult "Task not found", db)
      | some _ =>
        match tagIds.find? (fun tid =>
            (db.tags.find? (fun tg => tg.id == tid && tg.user_id == uid)).isNone) with
        | some badTid =>
            (errorResult ("Tag ID " ++ toString badTid ++ " not found or access denied"), db)
        | none =>
          let db2 := { db with
            taskTags := db.taskTags.filter
              (fun p => !(p.1 == taskId && tagIds.contains p.2)) }
          ({ status := "updated" }, db2)

/-- MCP tool schedule_reminder (`backend/src/mcp_server/server.py`, lines
775-860).  `remindAt` is the `fromisoformat` outcome of the remind_at
string (`none` models the ValueError branch); `now` is the `utcnow()`
read.  Validates the time is strictly in the future, verifies task
ownership, rejects a duplicate pending reminder, and inserts a `pending`
row; the tool never talks to the Dapr Jobs API, so the row keeps the
column default `dapr_job_name = NULL`. -/
def schedule_reminder (db : DB) (userId : Option String) (taskId : Nat)
    (remindAt : Option DateTime) (now : DateTime) : ToolResult × DB :=
  match userId with
  | none => (genericError, db)
  | some uid =>
    match remindAt with
    | none =>
        (errorResult "Invalid remind_at format. Use ISO format like '2025-01-15T09:00:00'", db)
    | some ra =>
      if ra.le now then
        (errorResult "Reminder time must be in the future", db)
      else
        match db.tasks.find? (fun t => t.id == taskId && t.user_id == uid) with
        | none => (errorResult "Task not found", db)
        | some _ =>
          match db.reminders.find? (fun r =>
              r.task_id == taskId && r.user_id == uid &&
              r.status == ReminderStatus.pending) with
          | some existing =>
              (errorResult ("A pending reminder already exists for this task (reminder_id: "
                ++ toString existing.id ++ ")"), db)
          | none =>
            let reminder : Reminder :=
              { id := db.nextReminderId
                task_id := taskId
                user_id := uid
                remind_at := ra
                status := ReminderStatus.pending
                sent_at := none
                dapr_job_name := none
                created_at := now }
            ({ status := "created" },
              { db with
                reminders := db.reminders ++ [reminder]
                nextReminderId := db.nextReminderId + 1 })

/-- MCP tool list_reminders (`backend/src/mcp_server/server.py`, lines
863-937). -/
def list_reminders (db : DB) (userId : Option String) (taskId : Option Nat)
    (status : Option String) : ToolResult × DB :=
  match userId with
  | none => (genericError, db)
  | some uid =>
    if truthyStr status &&
        !(["pending", "sent", "failed"].contains (status.getD "")) then
      (errorResult "Invalid status. Must be one of: pending, sent, failed", db)
    else
      match taskId with
      | some tid =>
        if (db.tasks.find? (fun t => t.id == tid && t.user_id == uid)).isNone then
          (errorResult "Task not found", db)
        else ({ status := "success" }, db)
      | none => ({ status := "success" }, db)

/-- MCP tool cancel_reminder (`backend/src/mcp_server/server.py`, lines
940-985). -/
def cancel_reminder (db : DB) (userId : Option String) (reminderId : Nat) :
    ToolResult × DB :=
  match userId with
  | none => (genericError, db)
  | some uid =>
    match db.reminders.find? (fun r => r.id == reminderId && r.user_id == uid) with
    | none => (errorResult "Reminder not found", db)
    | some _ =>
        ({ status := "deleted" },
          { db with reminders := db.reminders.filter (fun r => !(r.id == reminderId)) })

/-- MCP tool get_upcoming_reminders (`backend/src/mcp_server/server.py`,
lines 988-1058): bounds-checks `hours` into `1..168`, then runs a pure
query. -/
def get_upcoming_reminders (db : DB) (userId : Option String) (hours : Int) :
    ToolResult × DB :=
  match userId with
  | none => (genericError, db)
  | some _ =>
    if hours < 1 then (errorResult "Hours must be at least 1", db)
    else if hours > 168 then
      (errorResult "Hours cannot exceed 168 (7 days)", db)
    else ({ status := "success" }, db)

/-- MCP tool list_recurring (`backend/src/mcp_server/server.py`, lines
1061-1124): validates a truthy pattern, then builds the query ordered by
`Task.next_occurrence.asc()` (line 1098).  The Task model
(`backend/src/models/task.py`) declares no `next_occurrence` field - only
the migration adds the column to the database table - so the class-level
attribute access raises `AttributeError`, which the tool's catch-all
handler turns into the generic error result; the success return is
unreachable. -/
def list_recurring (db : DB) (userId : Option String)
    (pattern : Option String) : ToolResult × DB :=
  match userId with
  | none => (genericError, db)
  | some _ =>
    if truthyStr pattern && !(validPatterns.contains (pattern.getD "")) then
      (errorResult "Invalid pattern. Must be one of: daily, weekly, monthly, yearly", db)
    else (genericError, db)

/-- MCP tool skip_occurrence (`backend/src/mcp_server/server.py`, lines
1127-1190): verifies the task is an owned recurring task, then reads
`task.next_occurrence` (line 1162).  The Task model
(`backend/src/models/task.py`) declares no `next_occurrence` field - only
the migration adds the column to the database table - so the read on the
DB-loaded instance raises `AttributeError` before anything is computed or
committed; the catch-all handler turns it into the generic error result
and the session is discarded.  The success return of the source (status
`"skipped"`, line 1180) is unreachable. -/
def skip_occurrence (db : DB) (userId : Option String) (taskId : Nat)
    (now : DateTime) : ToolResult × DB :=
  match userId with
  | none => (genericError, db)
  | some uid =>
    match db.tasks.find? (fun t => t.id == taskId && t.user_id == uid) with
    | none => (errorResult "Task not found", db)
    | some task =>
      if !task.is_recurring then
        (errorResult "This is not a recurring task", db)
      else
        (genericError, db)

/-- MCP tool stop_recurrence (`backend/src/mcp_server/server.py`, lines
1193-1247): verifies the task is an owned recurring task, then evaluates
`RecurringService.format_pattern_description(old_pattern)` (line 1226).
The name `RecurringService` is bound only inside skip_occurrence's
locally imported scope and is unbound here, so the reference raises
`NameError` before any field is cleared; the tool's catch-all handler
turns it into the generic error result and the uncommitted session is
discarded. -/
def stop_recurrence (db : DB) (userId : Option String) (taskId : Nat) :
    ToolResult × DB :=
  match userId with
  | none => (genericError, db)
  | some uid =>
    match db.tasks.find? (fun t => t.id == taskId && t.user_id == uid) with
    | none => (errorResult "Task not found", db)
    | some task =>
      if !task.is_recurring then
        (errorResult "This is already not a recurring task", db)
      else
        (genericError, db)

end Mcp

/-- JSON-like value carried in pub/sub payloads and Python dicts. -/
inductive JVal where
  | str (s : String)
  | num (n : Int)
  | boolean (b : Bool)
  | null
  | obj (fields : List (String × JVal))
  | arr (elems : List JVal)

/-- Python `dict.get(key)` on a JSON object (None when the key is absent);
`Except.error` models the `AttributeError` raised when `.get` is called on
a non-dict value. -/
def JVal.getField : JVal → String → Except Unit (Option JVal)
  | .obj fields, key => .ok (fields.lookup key)
  | _, _ => .error ()

/-- Python truthiness of `dict.get(...)` results (`if not x:`). -/
def pyFalsy : Option JVal → Bool
  | none => true
  | some (.str s) => s == ""
  | some (.num n) => n == 0
  | some (.boolean b) => !b
  | some .null => true
  | some (.obj fields) => fields.isEmpty
  | some (.arr elems) => elems.isEmpty

/-- Python `str(x)` for the scalar values that flow into `resource_id`
(container values never reach it on the modelled paths). -/
def JVal.pyStr : JVal → String
  | .str s => s
  | .num n => toString n
  | .boolean b => if b then "True" else "False"
  | .null => "None"
  | .obj _ => "<dict>"
  | .arr _ => "<list>"

/-- Row inserted into `audit_logs` by
`services/audit-service/src/logger.py` `create_audit_log` (the fields the
claims inspect; `created_at` is a server-side timestamp). -/
structure AuditRow where
  user_id : JVal
  action : JVal
  resource_type : String
  resource_id : JVal
  request_id : Option JVal
  details : Option JVal
  status : String
  error_message : Option String

namespace Audit

/-- Detail projection built by AuditLogger.log_task_event
(`services/audit-service/src/logger.py`, lines 135-158): the event type
plus a sub-object with id, title, description, completed and, when
present, priority / tags / due_date / category_id. -/
def taskDetails (eventType : String) (taskId : String) (taskData : JVal) :
    JVal :=
  let base : List (String × JVal) :=
    [("id", .str taskId),
     ("title", ((taskData.getField "title").toOption.join).getD .null),
     ("description", ((taskData.getField "description").toOption.join).getD .null),
     ("completed", ((taskData.getField "completed").toOption.join).getD (.boolean false))]
  let extra := ["priority", "tags", "due_date", "category_id"].filterMap
    (fun key => match (taskData.getField key).toOption.join with
      | some v => some (key, v)
      | none => none)
  .obj [("event_type", .str eventType), ("task", .obj (base ++ extra))]

/-- AuditLogger.log_task_event: one `success` audit row with
`action = event_type`, `resource_type = "task"` and
`resource_id = str(task_id)`. -/
def log_task_event (eventType : String) (userId : JVal) (taskId : String)
    (taskData : JVal) (requestId : Option JVal) : AuditRow :=
  { user_id := userId
    action := .str eventType
    resource_type := "task"
    resource_id := .str taskId
    request_id := requestId
    details := some (taskDetails eventType taskId taskData)
    status := "success"
    error_message := none }

/-- The audit consumer handle_task_event
(`services/audit-service/src/consumer.py`, lines 26-127): reads
`event_type`, `user_id` and the snapshot under the key `task` (defaulting
to `{}`), takes the task id from `task["id"]`, drops the event with a
warning when any of the three is falsy, writes one audit row for the four
known event types, and on an exception tries to write one error row.  The
returned list is the sequence of rows inserted into `audit_logs`. -/
def handle_task_event (event : List (String × JVal)) : List AuditRow :=
  let event_type := event.lookup "event_type"
  let user_id := event.lookup "user_id"
  let task_data := (event.lookup "task").getD (.obj [])
  let request_id := event.lookup "request_id"
  if pyFalsy event_type then []
  else if pyFalsy user_id then []
  else
    match task_data.getField "id" with
    | .error _ =>
        -- AttributeError from `.get` on a non-dict snapshot: the except
        -- branch writes one error audit row.
        [{ user_id := (event.lookup "user_id").getD (.str "system")
           action := (event.lookup "event_type").getD (.str "task.event.error")
           resource_type := "task"
           resource_id := .str ""
           request_id := none
           details := none
           status := "error"
           error_message := some "AttributeError" }]
    | .ok task_id =>
      if pyFalsy task_id then []
      else
        match event_type with
        | some (.str s) =>
          if s == "task.created" || s == "task.updated" ||
              s == "task.completed" || s == "task.deleted" then
            [log_task_event s ((event.lookup "user_id").getD .null)
              ((task_id.getD .null).pyStr) task_data request_id]
          else []
        | _ => []

end Audit

/-- Envelope published on `task-events` by the REST write path
(`backend/src/api/routes/tasks.py` `_publish_task_event` serialising
`TaskEvent` from `backend/src/schemas/events.py`): top-level `event_type`,
`task_id`, `user_id`, a `task_data` snapshot object, plus timestamp and
correlation id. -/
def taskEventEnvelope (eventType : String) (taskId : Int) (userId : String)
    (taskData : List (String × JVal)) (timestamp correlationId : String) :
    List (String × JVal) :=
  [("event_type", .str eventType),
   ("task_id", .num taskId),
   ("user_id", .str userId),
   ("task_data", .obj taskData),
   ("timestamp", .str timestamp),
   ("correlation_id", .str correlationId)]

/-- Validated shape of the event consumed by the notification service
(`services/notification-service/src/consumer.py`, class ReminderEvent). -/
structure NotifReminderEvent where
  task_id : Int
  user_id : String
  title : String
  due_at : String
  remind_at : String
  notification_type : String := "in-app"
  correlation_id : Option String := none
deriving DecidableEq, Repr

/-- Event published by the notifier on `task-updates`
(`services/notification-service/src/notifier.py`, class
NotificationEvent). -/
structure NotificationEvent where
  event_type : String
  task_id : Int
  user_id : String
  title : String
  message : String
  notification_type : String
  timestamp : String
  correlation_id : Option String
deriving DecidableEq, Repr

/-- Result dict returned by the notification consumer handler. -/
structure HandlerResult where
  status : String
  message : String
deriving DecidableEq, Repr

/-- NotificationService.send_reminder_notification
(`services/notification-service/src/notifier.py`, lines 37-85): builds a
`NotificationEvent` with `event_type = "notification.sent"` and publishes
it to the `task-updates` topic; returns whether the publish succeeded
together with the publish attempted. -/
def NotificationService.sendReminderNotification (userId : String)
    (taskId : Int) (title message : String) (correlationId : Option String)
    (timestamp : String) (publishOk : Bool) :
    Bool × List (String × NotificationEvent) :=
  let notification : NotificationEvent :=
    { event_type := "notification.sent"
      task_id := taskId
      user_id := userId
      title := title
      message := message
      notification_type := "in-app"
      timestamp := timestamp
      correlation_id := correlationId }
  (publishOk, [("task-updates", notification)])

/-- The notification consumer handle_reminder_event
(`services/notification-service/src/consumer.py`, lines 29-83): a
`ValidationError` (modelled by `none`) yields an error result with no
publish; otherwise the handler builds the message
`"Reminder: Task '<title>' is due at <due_at>"` and delegates to the
notifier. -/
def handle_reminder_event (ev : Option NotifReminderEvent)
    (publishOk : Bool) (timestamp : String) :
    HandlerResult × List (String × NotificationEvent) :=
  match ev with
  | none => ({ status := "error", message := "Invalid event" }, [])
  | some r =>
    let message := "Reminder: Task '" ++ r.title ++ "' is due at " ++ r.due_at
    let sent := NotificationService.sendReminderNotification r.user_id
      r.task_id r.title message r.correlation_id timestamp publishOk
    if sent.1 then
      ({ status := "success", message := "Reminder notification sent" }, sent.2)
    else
      ({ status := "error", message := "Failed to send notification" }, sent.2)

/-- Decoded JWT payload as read by the websocket service (`sub` claim). -/
structure JwtPayload where
  sub : Option String
deriving DecidableEq, Repr

/-- Settings of the websocket service
(`services/websocket-service/src/config.py`): the JWT secret, whose
shipped default is the development placeholder below. -/
structure WsSettings where
  jwt_secret : String
deriving DecidableEq, Repr

/-- Default value of `Settings.jwt_secret`. -/
def defaultDevSecret : String :=
  "your-secret-key-change-in-production"

/-- Outcome of a websocket connection attempt: closed with a close code
before registration, or registered with the connection manager
(`broadcaster.connect`) under the given user id. -/
inductive WsOutcome where
  | closed (code : Nat) (reason : String)
  | connected (userId : String)
deriving DecidableEq, Repr

/-- verify_jwt_token (`services/websocket-service/src/routes/websocket.py`,
lines 16-35): `decode` models `jwt.decode` under the configured secret
(`none` is a raised JWTError); a missing or falsy `sub` claim yields
`None`. -/
def verify_jwt_token (decode : String → Option JwtPayload) (token : String) :
    Option String :=
  match decode token with
  | none => none
  | some payload =>
    match payload.sub with
    | none => none
    | some s => if s == "" then none else some s

/-- websocket_endpoint (`services/websocket-service/src/routes/websocket.py`,
lines 38-105, the pre-registration part): when the configured secret is
non-empty and differs from the development default, a missing token, an
invalid token, or a token subject differing from the path user id closes
the socket with code 1008 before `broadcaster.connect`; otherwise
(development mode) verification is skipped entirely and the connection is
registered. -/
def websocket_endpoint (settings : WsSettings)
    (decode : String → Option JwtPayload) (userId : String)
    (token : Option String) : WsOutcome :=
  if settings.jwt_secret != "" && settings.jwt_secret != defaultDevSecret then
    match token with
    | none => .closed 1008 "Authentication required"
    | some tk =>
      match verify_jwt_token decode tk with
      | none => .closed 1008 "Invalid token"
      | some authUid =>
        if authUid != userId then .closed 1008 "User ID mismatch"
        else .connected userId
  else
    .connected userId

/-- Statuses a tool result may carry under the catalog contract of the
spec, together with the guarantee that an error result carries a
message. -/
def statusSetOk (r : ToolResult) : Bool :=
  ["created", "updated", "deleted", "completed", "success",
    "error"].contains r.status &&
  (r.status != "error" || r.message.isSome)

/-- One invocation of an MCP tool with its inputs (the database it runs
against, the session user id, the tool arguments, and the clock reads). -/
inductive ToolCall where
  | addTask (db : DB) (userId : Option String) (title : String)
      (description : Option String) (priority : String)
      (dueDate : Option (Option DateTime)) (tagIds : Option (List Nat))
      (isRecurring : Bool) (recurrencePattern : Option String) (now : DateTime)
  | listTasks (db : DB) (userId : Option String) (status : String)
      (priority : Option String) (tagIds : Option (List Nat))
      (search : Option String) (sortBy : String) (sortOrder : String)
  | completeTask (db : DB) (userId : Option String) (taskId : Nat)
  | deleteTask (db : DB) (userId : Option String) (taskId : Nat)
  | updateTask (db : DB) (userId : Option String) (taskId : Nat)
      (title : Option String) (description : Option String)
      (priority : Option String) (dueDate : DueDateArg)
      (completed : Option Bool) (isRecurring : Option Bool)
      (recurrencePattern : Option String) (now : DateTime)
  | addTag (db : DB) (userId : Option String) (name : String)
      (color : String) (now : DateTime)
  | listTags (db : DB) (userId : Option String)
  | deleteTag (db : DB) (userId : Option String) (tagId : Nat)
  | tagTask (db : DB) (userId : Option String) (taskId : Nat)
      (tagIds : List Nat)
  | untagTask (db : DB) (userId : Option String) (taskId : Nat)
      (tagIds : List Nat)
  | scheduleReminder (db : DB) (userId : Option String) (taskId : Nat)
      (remindAt : Option DateTime) (now : DateTime)
  | listReminders (db : DB) (userId : Option String) (taskId : Option Nat)
      (status : Option String)
  | cancelReminder (db : DB) (userId : Option String) (reminderId : Nat)
  | getUpcomingReminders (db : DB) (userId : Option String) (hours : Int)
  | listRecurring (db : DB) (userId : Option String) (pattern : Option String)
  | skipOccurrence (db : DB) (userId : Option String) (taskId : Nat)
      (now : DateTime)
  | stopRecurrence (db : DB) (userId : Option String) (taskId : Nat)

/-- Dispatch of a tool call to its handler. -/
def ToolCall.run : ToolCall → ToolResult × DB
  | .addTask db u t d p dd ti ir rp now => Mcp.add_task db u t d p dd ti ir rp now
  | .listTasks db u s p ti se sb so => Mcp.list_tasks db u s p ti se sb so
  | .completeTask db u tid => Mcp.complete_task db u tid
  | .deleteTask db u tid => Mcp.delete_task db u tid
  | .updateTask db u tid t d p dd c ir rp now =>
      Mcp.update_task db u tid t d p dd c ir rp now
  | .addTag db u n c now => Mcp.add_tag db u n c now
  | .listTags db u => Mcp.list_tags db u
  | .deleteTag db u tid => Mcp.delete_tag db u tid
  | .tagTask db u tid tags => Mcp.tag_task db u tid tags
  | .untagTask db u tid tags => Mcp.untag_task db u tid tags
  | .scheduleReminder db u tid ra now => Mcp.schedule_reminder db u tid ra now
  | .listReminders db u tid st => Mcp.list_reminders db u tid st
  | .cancelReminder db u rid => Mcp.cancel_reminder db u rid
  | .getUpcomingReminders db u h => Mcp.get_upcoming_reminders db u h
  | .listRecurring db u p => Mcp.list_recurring db u p
  | .skipOccurrence db u tid now => Mcp.skip_occurrence db u tid now
  | .stopRecurrence db u tid => Mcp.stop_recurrence db u tid

/-- Stored recurrence pattern that is either unset (NULL, or the empty
string which the tools' truthiness check lets through unvalidated) or one
of the four valid patterns. -/
def patternUnsetOrValid (t : Task) : Bool :=
  match t.recurrence_pattern with
  | none => true
  | some p => p == "" || validPatterns.contains p

/-- Empty database with fresh sequences. -/
def dbEmpty : DB :=
  { tasks := [], tags := [], taskTags := [], reminders := []
    nextTaskId := 1, nextTagId := 1, nextReminderId := 1 }

/-- Database states reachable from the empty database through the
add_task and update_task tool operations (the operations claim C8 ranges
over). -/
inductive McpTaskReachable : DB → Prop where
  | init : McpTaskReachable dbEmpty
  | stepAdd {db : DB} (userId : Option String) (title : String)
      (description : Option String) (priority : String)
      (dueDate : Option (Option DateTime)) (tagIds : Option (List Nat))
      (isRecurring : Bool) (recurrencePattern : Option String)
      (now : DateTime) :
      McpTaskReachable db →
      McpTaskReachable (Mcp.add_task db userId title description priority
        dueDate tagIds isRecurring recurrencePattern now).2
  | stepUpdate {db : DB} (userId : Option String) (taskId : Nat)
      (title : Option String) (description : Option String)
      (priority : Option String) (dueDate : DueDateArg)
      (completed : Option Bool) (isRecurring : Option Bool)
      (recurrencePattern : Option String) (now : DateTime) :
      McpTaskReachable db →
      McpTaskReachable (Mcp.update_task db userId taskId title description
        priority dueDate completed isRecurring recurrencePattern now).2

/-- Sample instant used by the concrete scenarios below. -/
def d2026 : DateTime := ⟨2026, 1, 1, 0, 0, 0⟩

/-- Sample non-recurring task owned by user "u1". -/
def taskU1 : Task :=
  { id := 1, user_id := "u1", title := "Buy milk", description := none
    completed := false, priority := "medium", due_date := none
    is_recurring := false, recurrence_pattern := none
    recurrence_data := none, next_occurrence := none
    created_at := d2026, updated_at := d2026 }

/-- Sample pending reminder for task 1. -/
def pendingRem : Reminder :=
  { id := 1, task_id := 1, user_id := "u1"
    remind_at := ⟨2026, 2, 1, 0, 0, 0⟩, status := ReminderStatus.pending
    sent_at := none, dapr_job_name := none, created_at := d2026 }

/-- Database holding just the sample task. -/
def dbOneTask : DB := { dbEmpty with tasks := [taskU1], nextTaskId := 2 }

/-- Database holding the sample task and a pending reminder for it. -/
def dbTaskPending : DB :=
  { dbOneTask with reminders := [pendingRem], nextReminderId := 2 }

/-- Claim C4 (code bug): stop_recurrence can never succeed.  Its reference
to `RecurringService` (server.py line 1226) raises `NameError` before the
recurrence fields are cleared, so on every input - in particular on an
owned recurring task - the tool returns a status of "error" and leaves the
database unchanged, contradicting the spec's `stop_recurrence` contract. -/
theorem claim_C4_bug :
    ∀ (db : DB) (userId : Option String) (taskId : Nat),
      (Mcp.stop_recurrence db userId taskId).1.status = "error" ∧
      (Mcp.stop_recurrence db userId taskId).2 = db := by
  intro db userId taskId
  cases userId with
  | none => exact ⟨rfl, rfl⟩
  | some uid =>
    simp only [Mcp.stop_recurrence]
    cases hfind : db.tasks.find? (fun t => t.id == taskId && t.user_id == uid) with
    | none => exact ⟨rfl, rfl⟩
    | some task =>
      simp only [hfind]
      split <;> exact ⟨rfl, rfl⟩

/-- Claim C5 (code bug): for every envelope in the exact shape the REST
write path publishes on `task-events` (snapshot under `task_data`, id at
top level), the audit consumer inserts no audit row at all: it looks up
the snapshot under the key `task` and the task id under `task["id"]`,
finds neither, and drops the event. -/
theorem claim_C5_bug :
    ∀ (eventType : String) (taskId : Int) (userId : String)
      (taskData : List (String × JVal)) (timestamp correlationId : String),
      Audit.handle_task_event
        (taskEventEnvelope eventType taskId userId taskData timestamp
          correlationId) = [] := by
  intro eventType taskId userId taskData timestamp correlationId
  simp only [Audit.handle_task_event, taskEventEnvelope, List.lookup]
  cases h1 : eventType == "" <;> cases h2 : userId == "" <;>
    simp [pyFalsy, JVal.getField, h1, h2]

/-- Claim C6, counterexample: on a concrete due event the notifier's
message contains the extra word "Task" and the published event's type is
`notification.sent` with no `action` field, not the claimed
`task.reminder` / `reminder`. -/
theorem claim_C6_counterexample :
    (handle_reminder_event
        (some { task_id := 123, user_id := "u1", title := "Buy milk"
                due_at := "2026-01-15T10:00:00"
                remind_at := "2026-01-15T09:00:00" }) true "ts").2 =
      [("task-updates",
        { event_type := "notification.sent", task_id := 123, user_id := "u1"
          title := "Buy milk"
          message := "Reminder: Task 'Buy milk' is due at 2026-01-15T10:00:00"
          notification_type := "in-app", timestamp := "ts"
          correlation_id := none })] ∧
    "Reminder: Task 'Buy milk' is due at 2026-01-15T10:00:00" ≠
      "Reminder: 'Buy milk' is due at 2026-01-15T10:00:00" ∧
    "notification.sent" ≠ "task.reminder" := by
  refine ⟨rfl, ?_, ?_⟩ <;> decide

/-- Claim C6 (amended): for every validated reminder event it consumes,
the notifier builds the message `"Reminder: Task '<title>' is due at
<due_at>"` and publishes to `task-updates` exactly one NotificationEvent
with `event_type = "notification.sent"` and
`notification_type = "in-app"` (there is no `action` field). -/
theorem claim_C6_amended :
    ∀ (ev : NotifReminderEvent) (publishOk : Bool) (ts : String),
      (handle_reminder_event (some ev) publishOk ts).2 =
        [("task-updates",
          { event_type := "notification.sent"
            task_id := ev.task_id
            user_id := ev.user_id
            title := ev.title
            message := "Reminder: Task '" ++ ev.title ++ "' is due at " ++ ev.due_at
            notification_type := "in-app"
            timestamp := ts
            correlation_id := ev.correlation_id })] := by
  intro ev publishOk ts
  cases publishOk <;> rfl

/-- Claim C9, counterexample: with the shipped default JWT secret the
endpoint skips authentication entirely - a connection attempt with no
token at all is registered with the connection manager instead of being
closed with code 1008. -/
theorem claim_C9_counterexample :
    websocket_endpoint ⟨defaultDevSecret⟩ (fun _ => none) "u1" none =
      WsOutcome.connected "u1" := rfl

/-- Claim C9 (amended): when the configured JWT secret is non-empty and
differs from the development default, every connection attempt with a
missing token, an invalid token, or a token subject differing from the
path user id is closed with the policy-violation code 1008 and never
registered; with the default (or empty) secret verification is skipped. -/
theorem claim_C9_amended :
    ∀ (settings : WsSettings) (decode : String → Option JwtPayload)
      (userId : String) (token : Option String),
      settings.jwt_secret ≠ "" → settings.jwt_secret ≠ defaultDevSecret →
      (token = none →
        websocket_endpoint settings decode userId token =
          WsOutcome.closed 1008 "Authentication required") ∧
      (∀ tk, token = some tk → verify_jwt_token decode tk = none →
        websocket_endpoint settings decode userId token =
          WsOutcome.closed 1008 "Invalid token") ∧
      (∀ tk s, token = some tk → verify_jwt_token decode tk = some s →
        s ≠ userId →
        websocket_endpoint settings decode userId token =
          WsOutcome.closed 1008 "User ID mismatch") := by
  intro settings decode userId token h1 h2
  have hb : (settings.jwt_secret != "" && settings.jwt_secret != defaultDevSecret) = true := by
    simp [bne_iff_ne, h1, h2]
  refine ⟨?_, ?_, ?_⟩
  · rintro rfl
    simp [websocket_endpoint, hb]
  · rintro tk rfl hv
    simp [websocket_endpoint, hb, hv]
  · rintro tk s rfl hv hs
    simp [websocket_endpoint, hb, hv, bne_iff_ne, hs]

/-- Claim C9, witness: with a production secret a tokenless attempt is
closed with code 1008. -/
theorem claim_C9_amended_witness :
    websocket_endpoint ⟨"prod-secret"⟩ (fun _ => none) "u1" none =
      WsOutcome.closed 1008 "Authentication required" :=
  (claim_C9_amended ⟨"prod-secret"⟩ (fun _ => none) "u1" none
    (by decide) (by decide)).1 rfl

/-- Claim C10: the MCP schedule_reminder tool rejects every remind_at at
or before the current instant with an error result and an unchanged
database (the synchronous past-due fire path is never run), and every
successful call only inserts a `pending` reminder row whose
`dapr_job_name` stays NULL - the tool performs no Dapr job scheduling at
all, so the job-callback path has no job that could ever fire the row. -/
theorem claim_C10_schedule_reminder :
    (∀ (db : DB) (uid : String) (taskId : Nat) (ra now : DateTime),
      ra.le now = true →
      Mcp.schedule_reminder db (some uid) taskId (some ra) now =
        (errorResult "Reminder time must be in the future", db)) ∧
    (∀ (db : DB) (uid : String) (taskId : Nat) (ra now : DateTime)
      (task : Task),
      ra.le now = false →
      db.tasks.find? (fun t => t.id == taskId && t.user_id == uid) = some task →
      db.reminders.find? (fun r => r.task_id == taskId && r.user_id == uid &&
        r.status == ReminderStatus.pending) = none →
      Mcp.schedule_reminder db (some uid) taskId (some ra) now =
        ({ status := "created" },
          { db with
            reminders := db.reminders ++
              [{ id := db.nextReminderId, task_id := taskId, user_id := uid
                 remind_at := ra, status := ReminderStatus.pending
                 sent_at := none, dapr_job_name := none, created_at := now }]
            nextReminderId := db.nextReminderId + 1 })) := by
  constructor
  · intro db uid taskId ra now h
    simp [Mcp.schedule_reminder, h]
  · intro db uid taskId ra now task hle hfind hdup
    simp [Mcp.schedule_reminder, hle, hfind, hdup]

/-- Claim C10, witness: a past-due request is rejected; a valid future
request inserts exactly one pending row with a NULL job name. -/
theorem claim_C10_witness :
    Mcp.schedule_reminder dbOneTask (some "u1") 1 (some d2026)
        ⟨2026, 2, 1, 0, 0, 0⟩ =
      (errorResult "Reminder time must be in the future", dbOneTask) ∧
    Mcp.schedule_reminder dbOneTask (some "u1") 1
        (some ⟨2026, 2, 1, 0, 0, 0⟩) d2026 =
      ({ status := "created" },
        { dbOneTask with
          reminders := [{ id := 1, task_id := 1, user_id := "u1"
                          remind_at := ⟨2026, 2, 1, 0, 0, 0⟩
                          status := ReminderStatus.pending
                          sent_at := none, dapr_job_name := none
                          created_at := d2026 }]
          nextReminderId := 2 }) :=
  ⟨claim_C10_schedule_reminder.1 dbOneTask "u1" 1 d2026 ⟨2026, 2, 1, 0, 0, 0⟩
      (by decide),
   claim_C10_schedule_reminder.2 dbOneTask "u1" 1 ⟨2026, 2, 1, 0, 0, 0⟩ d2026
      taskU1 (by decide) (by decide) (by decide)⟩

/-- Claim C2: for every create with remind_at at or before now (equality
included), the past-due path runs inside the create: exactly one
`reminder.due` event is published, the returned row has `status = sent`
with a non-null `sent_at` when the publish succeeded and `status = failed`
otherwise, and no Dapr job scheduling is attempted, leaving
`dapr_job_name` NULL. -/
theorem claim_C2_past_due :
    ∀ (db : DB) (userId : String) (taskId : Nat)
      (remindAt now nowSent : DateTime) (publishOk scheduleOk : Bool)
      (task : Task),
      db.tasks.find? (fun t => t.id == taskId && t.user_id == userId) = some task →
      remindAt.le now = true →
      (ReminderService.createReminder db userId taskId remindAt now nowSent
        publishOk scheduleOk).scheduledJobs = [] ∧
      (ReminderService.createReminder db userId taskId remindAt now nowSent
        publishOk scheduleOk).publishedEvents =
        [{ event_type := "reminder.due", reminder_id := db.nextReminderId
           task_id := task.id, user_id := userId, title := task.title
           due_at := task.due_date, remind_at := remindAt }] ∧
      (publishOk = true →
        (ReminderService.createReminder db userId taskId remindAt now nowSent
          publishOk scheduleOk).result =
          .ok { id := db.nextReminderId, task_id := taskId, user_id := userId
                remind_at := remindAt, status := ReminderStatus.sent
                sent_at := some nowSent, dapr_job_name := none
                created_at := now }) ∧
      (publishOk = false →
        (ReminderService.createReminder db userId taskId remindAt now nowSent
          publishOk scheduleOk).result =
          .ok { id := db.nextReminderId, task_id := taskId, user_id := userId
                remind_at := remindAt, status := ReminderStatus.failed
                sent_at := none, dapr_job_name := none
                created_at := now }) := by
  intro db userId taskId remindAt now nowSent publishOk scheduleOk task hfind hle
  cases publishOk <;>
    simp [ReminderService.createReminder, ReminderService.firePastDueReminder,
      hfind, hle]

/-- Claim C2, witness: a reminder created with remind_at equal to now
fires immediately and is marked sent. -/
theorem claim_C2_witness :
    (ReminderService.createReminder dbOneTask "u1" 1 d2026 d2026
      ⟨2026, 1, 1, 0, 0, 5⟩ true true).publishedEvents =
      [{ event_type := "reminder.due", reminder_id := 1, task_id := 1
         user_id := "u1", title := "Buy milk", due_at := none
         remind_at := d2026 }] ∧
    (ReminderService.createReminder dbOneTask "u1" 1 d2026 d2026
      ⟨2026, 1, 1, 0, 0, 5⟩ true true).result =
      .ok { id := 1, task_id := 1, user_id := "u1", remind_at := d2026
            status := ReminderStatus.sent, sent_at := some ⟨2026, 1, 1, 0, 0, 5⟩
            dapr_job_name := none, created_at := d2026 } := by
  have h := claim_C2_past_due dbOneTask "u1" 1 d2026 d2026 ⟨2026, 1, 1, 0, 0, 5⟩
    true true taskU1 (by decide) (by decide)
  exact ⟨h.2.1, h.2.2.1 rfl⟩

/-- Claim C1, counterexample: the REST create path
(ReminderService.create_reminder) performs no duplicate-pending check.  On
a database that already holds a pending reminder for task 1, a second
create succeeds and leaves two pending rows for the task, violating both
halves of the claim at this concrete input. -/
theorem claim_C1_counterexample :
    (ReminderService.createReminder dbTaskPending "u1" 1 ⟨2026, 6, 1, 0, 0, 0⟩
        d2026 d2026 true true).result =
      .ok { id := 2, task_id := 1, user_id := "u1"
            remind_at := ⟨2026, 6, 1, 0, 0, 0⟩
            status := ReminderStatus.pending, sent_at := none
            dapr_job_name := some "reminder-2", created_at := d2026 } ∧
    DB.countPendingForTask
      (ReminderService.createReminder dbTaskPending "u1" 1 ⟨2026, 6, 1, 0, 0, 0⟩
        d2026 d2026 true true).db 1 = 2 := by
  constructor <;> rfl

/-- Updating a reminder row by a primary key fresh for the whole list is a
no-op (helper for the commit model). -/
theorem map_update_fresh (l : List Reminder) (n : Nat) (r : Reminder)
    (hfresh : ∀ x ∈ l, x.id ≠ n) :
    l.map (fun x => if x.id == n then r else x) = l := by
  induction l with
  | nil => rfl
  | cons a t ih =>
    have ha : (a.id == n) = false := by
      simp [hfresh a (List.mem_cons_self a t)]
    simp only [List.map_cons, ha, Bool.false_eq_true, if_false]
    rw [ih (fun x hx => hfresh x (List.mem_cons_of_mem a hx))]

/-- Claim C1 (amended): only the MCP schedule_reminder tool rejects a
create for a task that already has a pending reminder;
ReminderService.create_reminder - the REST POST path - performs no such
check and inserts a further pending row (here stated for a future
remind_at, where the new row stays pending), so the at-most-one-pending
invariant is not enforced on the REST path. -/
theorem claim_C1_amended :
    (∀ (db : DB) (uid : String) (taskId : Nat) (ra now : DateTime)
      (task : Task) (ex : Reminder),
      ra.le now = false →
      db.tasks.find? (fun t => t.id == taskId && t.user_id == uid) = some task →
      db.reminders.find? (fun r => r.task_id == taskId && r.user_id == uid &&
        r.status == ReminderStatus.pending) = some ex →
      Mcp.schedule_reminder db (some uid) taskId (some ra) now =
        (errorResult ("A pending reminder already exists for this task (reminder_id: "
          ++ toString ex.id ++ ")"), db)) ∧
    (∀ (db : DB) (uid : String) (taskId : Nat) (ra now nowSent : DateTime)
      (publishOk scheduleOk : Bool) (task : Task),
      db.tasks.find? (fun t => t.id == taskId && t.user_id == uid) = some task →
      ra.le now = false →
      (∀ r ∈ db.reminders, r.id ≠ db.nextReminderId) →
      DB.countPendingForTask
        (ReminderService.createReminder db uid taskId ra now nowSent publishOk
          scheduleOk).db taskId =
        db.countPendingForTask taskId + 1) := by
  constructor
  · intro db uid taskId ra now task ex hle hfind hdup
    simp [Mcp.schedule_reminder, hle, hfind, hdup]
  · intro db uid taskId ra now nowSent publishOk scheduleOk task hfind hle hfresh
    simp only [ReminderService.createReminder, hfind, hle, Bool.false_eq_true,
      if_false]
    cases scheduleOk with
    | false =>
      simp [DB.countPendingForTask, List.filter_append]
    | true =>
      simp only [DB.setReminder, List.map_append, List.map_cons, List.map_nil]
      rw [map_update_fresh db.reminders db.nextReminderId _ hfresh]
      simp [DB.countPendingForTask, List.filter_append]

/-- Claim C1, witness: the amended claim evaluated on the concrete
database with one pending reminder - the MCP tool rejects; the REST create
raises the pending count for the task from 1 to 2. -/
theorem claim_C1_amended_witness :
    Mcp.schedule_reminder dbTaskPending (some "u1") 1
        (some ⟨2026, 3, 1, 0, 0, 0⟩) d2026 =
      (errorResult "A pending reminder already exists for this task (reminder_id: 1)",
        dbTaskPending) ∧
    DB.countPendingForTask
      (ReminderService.createReminder dbTaskPending "u1" 1 ⟨2026, 3, 1, 0, 0, 0⟩
        d2026 d2026 true true).db 1 =
      DB.countPendingForTask dbTaskPending 1 + 1 :=
  ⟨claim_C1_amended.1 dbTaskPending "u1" 1 ⟨2026, 3, 1, 0, 0, 0⟩ d2026 taskU1
      pendingRem (by decide) (by decide) (by decide),
   claim_C1_amended.2 dbTaskPending "u1" 1 ⟨2026, 3, 1, 0, 0, 0⟩ d2026 d2026
      true true taskU1 (by decide) (by decide) (by decide)⟩

/-- Tool results of add_task stay within the catalog contract. -/
theorem statusSetOk_add_task (db : DB) (userId : Option String) (title : String)
    (description : Option String) (priority : String)
    (dueDate : Option (Option DateTime)) (tagIds : Option (List Nat))
    (isRecurring : Bool) (recurrencePattern : Option String) (now : DateTime) :
    statusSetOk (Mcp.add_task db userId title description priority dueDate
      tagIds isRecurring recurrencePattern now).1 = true := by
  cases userId with
  | none => rfl
  | some uid =>
    simp only [Mcp.add_task]
    repeat' split
    all_goals rfl

/-- Tool results of list_tasks stay within the catalog contract. -/
theorem statusSetOk_list_tasks (db : DB) (userId : Option String)
    (status : String) (priority : Option String) (tagIds : Option (List Nat))
    (search : Option String) (sortBy : String) (sortOrder : String) :
    statusSetOk (Mcp.list_tasks db userId status priority tagIds search
      sortBy sortOrder).1 = true := by
  cases userId <;> rfl

/-- Tool results of complete_task stay within the catalog contract. -/
theorem statusSetOk_complete_task (db : DB) (userId : Option String)
    (taskId : Nat) :
    statusSetOk (Mcp.complete_task db userId taskId).1 = true := by
  cases userId with
  | none => rfl
  | some uid =>
    simp only [Mcp.complete_task]
    repeat' split
    all_goals rfl

/-- Tool results of delete_task stay within the catalog contract. -/
theorem statusSetOk_delete_task (db : DB) (userId : Option String)
    (taskId : Nat) :
    statusSetOk (Mcp.delete_task db userId taskId).1 = true := by
  cases userId with
  | none => rfl
  | some uid =>
    simp only [Mcp.delete_task]
    repeat' split
    all_goals rfl

/-- Tool results of update_task stay within the catalog contract. -/
theorem statusSetOk_update_task (db : DB) (userId : Option String)
    (taskId : Nat) (title : Option String) (description : Option String)
    (priority : Option String) (dueDate : DueDateArg)
    (completed : Option Bool) (isRecurring : Option Bool)
    (recurrencePattern : Option String) (now : DateTime) :
    statusSetOk (Mcp.update_task db userId taskId title description priority
      dueDate completed isRecurring recurrencePattern now).1 = true := by
  cases userId with
  | none => rfl
  | some uid =>
    simp only [Mcp.update_task]
    repeat' split
    all_goals (first | rfl | (cases dueDate <;> rfl))

/-- Tool results of add_tag stay within the catalog contract. -/
theorem statusSetOk_add_tag (db : DB) (userId : Option String) (name : String)
    (color : String) (now : DateTime) :
    statusSetOk (Mcp.add_tag db userId name color now).1 = true := by
  cases userId with
  | none => rfl
  | some uid =>
    simp only [Mcp.add_tag]
    repeat' split
    all_goals rfl

/-- Tool results of list_tags stay within the catalog contract. -/
theorem statusSetOk_list_tags (db : DB) (userId : Option String) :
    statusSetOk (Mcp.list_tags db userId).1 = true := by
  cases userId <;> rfl

/-- Tool results of delete_tag stay within the catalog contract. -/
theorem statusSetOk_delete_tag (db : DB) (userId : Option String)
    (tagId : Nat) :
    statusSetOk (Mcp.delete_tag db userId tagId).1 = true := by
  cases userId with
  | none => rfl
  | some uid =>
    simp only [Mcp.delete_tag]
    repeat' split
    all_goals rfl

/-- Tool results of tag_task stay within the catalog contract. -/
theorem statusSetOk_tag_task (db : DB) (userId : Option String)
    (taskId : Nat) (tagIds : List Nat) :
    statusSetOk (Mcp.tag_task db userId taskId tagIds).1 = true := by
  cases userId with
  | none => rfl
  | some uid =>
    simp only [Mcp.tag_task]
    repeat' split
    all_goals rfl

/-- Tool results of untag_task stay within the catalog contract. -/
theorem statusSetOk_untag_task (db : DB) (userId : Option String)
    (taskId : Nat) (tagIds : List Nat) :
    statusSetOk (Mcp.untag_task db userId taskId tagIds).1 = true := by
  cases userId with
  | none => rfl
  | some uid =>
    simp only [Mcp.untag_task]
    repeat' split
    all_goals rfl

/-- Tool results of schedule_reminder stay within the catalog contract. -/
theorem statusSetOk_schedule_reminder (db : DB) (userId : Option String)
    (taskId : Nat) (remindAt : Option DateTime) (now : DateTime) :
    statusSetOk (Mcp.schedule_reminder db userId taskId remindAt now).1 = true := by
  cases userId with
  | none => rfl
  | some uid =>
    cases remindAt with
    | none => rfl
    | some ra =>
      simp only [Mcp.schedule_reminder]
      repeat' split
      all_goals rfl

/-- Tool results of list_reminders stay within the catalog contract. -/
theorem statusSetOk_list_reminders (db : DB) (userId : Option String)
    (taskId : Option Nat) (status : Option String) :
    statusSetOk (Mcp.list_reminders db userId taskId status).1 = true := by
  cases userId with
  | none => rfl
  | some uid =>
    simp only [Mcp.list_reminders]
    repeat' split
    all_goals rfl

/-- Tool results of cancel_reminder stay within the catalog contract. -/
theorem statusSetOk_cancel_reminder (db : DB) (userId : Option String)
    (reminderId : Nat) :
    statusSetOk (Mcp.cancel_reminder db userId reminderId).1 = true := by
  cases userId with
  | none => rfl
  | some uid =>
    simp only [Mcp.cancel_reminder]
    repeat' split
    all_goals rfl

/-- Tool results of get_upcoming_reminders stay within the catalog
contract. -/
theorem statusSetOk_get_upcoming (db : DB) (userId : Option String)
    (hours : Int) :
    statusSetOk (Mcp.get_upcoming_reminders db userId hours).1 = true := by
  cases userId with
  | none => rfl
  | some uid =>
    simp only [Mcp.get_upcoming_reminders]
    repeat' split
    all_goals rfl

/-- Tool results of list_recurring stay within the catalog contract. -/
theorem statusSetOk_list_recurring (db : DB) (userId : Option String)
    (pattern : Option String) :
    statusSetOk (Mcp.list_recurring db userId pattern).1 = true := by
  cases userId with
  | none => rfl
  | some uid =>
    simp only [Mcp.list_recurring]
    repeat' split
    all_goals rfl

/-- Tool results of skip_occurrence stay within the catalog contract. -/
theorem statusSetOk_skip_occurrence (db : DB) (userId : Option String)
    (taskId : Nat) (now : DateTime) :
    statusSetOk (Mcp.skip_occurrence db userId taskId now).1 = true := by
  cases userId with
  | none => rfl
  | some uid =>
    simp only [Mcp.skip_occurrence]
    repeat' split
    all_goals rfl

/-- Tool results of stop_recurrence stay within the catalog contract. -/
theorem statusSetOk_stop_recurrence (db : DB) (userId : Option String)
    (taskId : Nat) :
    statusSetOk (Mcp.stop_recurrence db userId taskId).1 = true := by
  cases userId with
  | none => rfl
  | some uid =>
    simp only [Mcp.stop_recurrence]
    repeat' split
    all_goals rfl

/-- Claim C7: every MCP tool call, on every input, returns a structured
dict whose status is one of {created, updated, deleted, completed,
success, error}; every input-validation failure and every unhandled
exception yields a dict with status "error" and a safe message, and no
call raises (the embedded handlers are total functions: every exception
path, the catch-all included, returns an error dict).  The source's
out-of-set returns - skip_occurrence's "skipped" (server.py line 1180)
and stop_recurrence's "stopped" (line 1237) - are unreachable: both
tools hit an `AttributeError` / `NameError` first and fall into their
catch-all error result. -/
theorem claim_C7_tool_status :
    ∀ c : ToolCall, statusSetOk (ToolCall.run c).1 = true := by
  intro c
  cases c with
  | addTask db u t d p dd ti ir rp now =>
      exact statusSetOk_add_task db u t d p dd ti ir rp now
  | listTasks db u s p ti se sb so =>
      exact statusSetOk_list_tasks db u s p ti se sb so
  | completeTask db u tid => exact statusSetOk_complete_task db u tid
  | deleteTask db u tid => exact statusSetOk_delete_task db u tid
  | updateTask db u tid t d p dd c ir rp now =>
      exact statusSetOk_update_task db u tid t d p dd c ir rp now
  | addTag db u n c now => exact statusSetOk_add_tag db u n c now
  | listTags db u => exact statusSetOk_list_tags db u
  | deleteTag db u tid => exact statusSetOk_delete_tag db u tid
  | tagTask db u tid tags => exact statusSetOk_tag_task db u tid tags
  | untagTask db u tid tags => exact statusSetOk_untag_task db u tid tags
  | scheduleReminder db u tid ra now =>
      exact statusSetOk_schedule_reminder db u tid ra now
  | listReminders db u tid st => exact statusSetOk_list_reminders db u tid st
  | cancelReminder db u rid => exact statusSetOk_cancel_reminder db u rid
  | getUpcomingReminders db u h => exact statusSetOk_get_upcoming db u h
  | listRecurring db u p => exact statusSetOk_list_recurring db u p
  | skipOccurrence db u tid now => exact statusSetOk_skip_occurrence db u tid now
  | stopRecurrence db u tid => exact statusSetOk_stop_recurrence db u tid

/-- A recurrence pattern that passed a tool's truthiness-guarded
validation is empty or valid (helper). -/
theorem pattern_check_ok {p : String}
    (hpat : ¬((truthyStr (some p) &&
      !(validPatterns.contains ((some p).getD ""))) = true)) :
    (p == "" || validPatterns.contains p) = true := by
  cases hq : (p == "") with
  | true => simp [hq]
  | false =>
    cases hcb : validPatterns.contains p with
    | true => simp [hcb]
    | false =>
      exfalso
      apply hpat
      simp [truthyStr, bne, hq]
      simpa using hcb

/-- The add_task tool preserves the pattern invariant (helper). -/
theorem add_task_pattern_inv (db : DB) (userId : Option String)
    (title : String) (description : Option String) (priority : String)
    (dueDate : Option (Option DateTime)) (tagIds : Option (List Nat))
    (isRecurring : Bool) (recurrencePattern : Option String) (now : DateTime)
    (h : ∀ t ∈ db.tasks, patternUnsetOrValid t = true) :
    ∀ t ∈ (Mcp.add_task db userId title description priority dueDate tagIds
      isRecurring recurrencePattern now).2.tasks,
      patternUnsetOrValid t = true := by
  cases userId with
  | none => exact h
  | some uid =>
    simp only [Mcp.add_task]
    split
    · exact h
    split
    · exact h
    rename_i hpri hpat
    split
    · exact h
    split
    · exact h
    intro t ht
    simp only at ht
    cases htl : truthyList tagIds <;> simp only [htl, if_true, if_false,
      Bool.false_eq_true] at ht <;>
    · rcases List.mem_append.mp ht with h1 | h2
      · exact h t h1
      · have ht2 := List.mem_singleton.mp h2
        subst ht2
        cases isRecurring with
        | false => rfl
        | true =>
          cases recurrencePattern with
          | none => rfl
          | some p => exact pattern_check_ok hpat

/-- The update_task tool preserves the pattern invariant (helper). -/
theorem update_task_pattern_inv (db : DB) (userId : Option String)
    (taskId : Nat) (title : Option String) (description : Option String)
    (priority : Option String) (dueDate : DueDateArg)
    (completed : Option Bool) (isRecurring : Option Bool)
    (recurrencePattern : Option String) (now : DateTime)
    (h : ∀ t ∈ db.tasks, patternUnsetOrValid t = true) :
    ∀ t ∈ (Mcp.update_task db userId taskId title description priority
      dueDate completed isRecurring recurrencePattern now).2.tasks,
      patternUnsetOrValid t = true := by
  cases userId with
  | none => exact h
  | some uid =>
    simp only [Mcp.update_task]
    split
    · exact h
    split
    · exact h
    rename_i hpri hpat
    split
    · exact h
    rename_i task hfind
    have htask := List.mem_of_find?_eq_some hfind
    cases title <;> cases description <;> cases priority <;>
      cases completed <;> cases isRecurring <;> cases recurrencePattern <;>
      cases dueDate <;>
    first
      | exact h
      | (intro t ht
         simp only [DB.setTask, List.mem_map] at ht
         rcases ht with ⟨x, hx, hfx⟩
         split at hfx
         · subst hfx
           first
             | exact h task htask
             | exact pattern_check_ok hpat
         · subst hfx
           exact h x hx)

/-- Claim C8, counterexample: add_task accepts `is_recurring = true` with
no recurrence_pattern at all (the truthiness check skips a null pattern),
creating a task with `is_recurring = true` and `recurrence_pattern = NULL`
- the claimed implication fails on this reachable state. -/
theorem claim_C8_counterexample :
    (Mcp.add_task dbEmpty (some "u1") "Task" none "medium" none none true
      none d2026).1.status = "created" ∧
    ((Mcp.add_task dbEmpty (some "u1") "Task" none "medium" none none true
      none d2026).2.tasks.all
        (fun t => !t.is_recurring || t.recurrence_pattern.isSome)) = false := by
  constructor <;> rfl

/-- Claim C8 (amended): in every state reachable through add_task and
update_task, a task's recurrence_pattern is either unset (NULL, or the
empty string that the truthiness checks let through) or one of
{daily, weekly, monthly, yearly}; is_recurring = true does not imply a
pattern is present. -/
theorem claim_C8_amended :
    ∀ db : DB, McpTaskReachable db →
      ∀ t ∈ db.tasks, patternUnsetOrValid t = true := by
  intro db hreach
  induction hreach with
  | init => intro t ht; exact absurd ht (List.not_mem_nil t)
  | stepAdd userId title description priority dueDate tagIds isRecurring
      recurrencePattern now _ ih =>
    exact add_task_pattern_inv _ userId title description priority dueDate
      tagIds isRecurring recurrencePattern now ih
  | stepUpdate userId taskId title description priority dueDate completed
      isRecurring recurrencePattern now _ ih =>
    exact update_task_pattern_inv _ userId taskId title description priority
      dueDate completed isRecurring recurrencePattern now ih

/-- Claim C8, witness: the invariant evaluated on the task created by a
concrete add_task call with a valid daily pattern. -/
theorem claim_C8_amended_witness :
    patternUnsetOrValid
      { id := 1, user_id := "u1", title := "T", description := none
        completed := false, priority := "medium", due_date := none
        is_recurring := true, recurrence_pattern := some "daily"
        recurrence_data := none, next_occurrence := none
        created_at := d2026, updated_at := d2026 } = true :=
  claim_C8_amended _
    (McpTaskReachable.stepAdd (some "u1") "T" none "medium" none none true
      (some "daily") d2026 McpTaskReachable.init) _ (by decide)

/-- Claim C3, counterexample: the claimed equivalence fails for the
`yearly` pattern.  On Feb 29 2024 the backend rule returns Feb 28 2025
(leap-day clamp), while the recurring materializer's scheduler raises
`ValueError` because `yearly` is absent from its PATTERN_MAP. -/
theorem claim_C3_counterexample :
    Todo.RecurringTaskScheduler.calculateNextOccurrence
        ⟨2024, 2, 29, 10, 0, 0⟩ "yearly" =
      .error "Unsupported recurring pattern: yearly" ∧
    Todo.RecurringService.calculateNextOccurrence
        ⟨2024, 2, 29, 10, 0, 0⟩ "yearly" none =
      .ok ⟨2025, 2, 28, 10, 0, 0⟩ := by
  constructor <;> rfl

/-- Claim C3 (amended): the materializer's next-occurrence computation
agrees with the backend rule only for the patterns `daily`, `weekly` and
`monthly` with no `every:N` multiplier; for `yearly` (and the scheduler
takes no multiplier argument at all) the scheduler raises instead. -/
theorem claim_C3_amended :
    (∀ (d : Todo.DateTime) (p : String), p ∈ ["daily", "weekly", "monthly"] →
      Todo.RecurringTaskScheduler.calculateNextOccurrence d p =
        Todo.RecurringService.calculateNextOccurrence d p none) ∧
    (∀ d : Todo.DateTime,
      Todo.RecurringTaskScheduler.calculateNextOccurrence d "yearly" =
        .error "Unsupported recurring pattern: yearly") := by
  constructor
  · intro d p hp
    rcases List.mem_cons.mp hp with rfl | hp
    · rfl
    rcases List.mem_cons.mp hp with rfl | hp
    · rfl
    rcases List.mem_cons.mp hp with rfl | hp
    · rfl
    exact absurd hp (List.not_mem_nil p)
  · intro d
    rfl

/-- Claim C3, witness: the amended equivalence evaluated at the spec's
month-end boundary case (Jan 31 2026, `monthly`). -/
theorem claim_C3_amended_witness :
    Todo.RecurringTaskScheduler.calculateNextOccurrence
        ⟨2026, 1, 31, 10, 0, 0⟩ "monthly" =
      Todo.RecurringService.calculateNextOccurrence
        ⟨2026, 1, 31, 10, 0, 0⟩ "monthly" none :=
  claim_C3_amended.1 ⟨2026, 1, 31, 10, 0, 0⟩ "monthly" (by decide)

end Todo
